import Mathlib

/-!
Verification of the price-history pipeline and chat orchestration of the
Nunno Finance backend (`main.py`), as a shallow embedding in Lean 4.

Timestamps are modelled as calendar date-times; prices as rationals;
fallible Python code (exceptions) as `Except String`-valued functions.
External collaborators (the market-data fetch, the assistant) are
parameters of the embedded handlers.
-/

/-- Calendar date-time, the model of a pandas timestamp indexing a candle row. -/
structure DateTime where
  year : Nat
  month : Nat
  day : Nat
  hour : Nat
  minute : Nat
  second : Nat
deriving Repr, DecidableEq

/-- Field bounds under which a `DateTime` denotes an actual calendar instant
(as any timestamp produced by the market-data collaborator does). -/
def DateTime.Valid (t : DateTime) : Prop :=
  1 ≤ t.month ∧ t.month ≤ 12 ∧ 1 ≤ t.day ∧ t.day ≤ 31 ∧
  t.hour < 24 ∧ t.minute < 60 ∧ t.second < 60 ∧ t.year < 10000

instance (t : DateTime) : Decidable t.Valid := by
  unfold DateTime.Valid; infer_instance

/-- Chronological order of date-times, encoded as a single natural key
(lexicographic on year, month, day, hour, minute, second). -/
def DateTime.key (t : DateTime) : Nat :=
  ((((t.year * 13 + t.month) * 32 + t.day) * 24 + t.hour) * 60 + t.minute) * 60 + t.second

/-- Two-digit zero-padded decimal rendering, as strftime field directives do. -/
def pad2 (n : Nat) : List Char :=
  [Nat.digitChar (n / 10 % 10), Nat.digitChar (n % 10)]

/-- Four-digit zero-padded decimal rendering for the year field. -/
def pad4 (n : Nat) : List Char :=
  [Nat.digitChar (n / 1000 % 10), Nat.digitChar (n / 100 % 10),
   Nat.digitChar (n / 10 % 10), Nat.digitChar (n % 10)]

/-- Abbreviated month name, strftime directive for the month. -/
def monthAbbrev (m : Nat) : String :=
  match m with
  | 1 => "Jan" | 2 => "Feb" | 3 => "Mar" | 4 => "Apr" | 5 => "May" | 6 => "Jun"
  | 7 => "Jul" | 8 => "Aug" | 9 => "Sep" | 10 => "Oct" | 11 => "Nov" | _ => "Dec"

/-- Month offsets of Sakamoto's day-of-week algorithm. -/
def sakamotoOffset (m : Nat) : Nat :=
  [0, 3, 2, 5, 0, 3, 5, 1, 4, 6, 2, 4].getD (m - 1) 0

/-- Day of the week of a Gregorian date, 0 = Sunday (Sakamoto's method). -/
def dayOfWeek (y m d : Nat) : Nat :=
  let y := if m < 3 then y - 1 else y
  ((y + y / 4 - y / 100) + y / 400 + sakamotoOffset m + d) % 7

/-- Abbreviated weekday name, strftime directive for the weekday. -/
def weekdayAbbrev (w : Nat) : String :=
  match w with
  | 0 => "Sun" | 1 => "Mon" | 2 => "Tue" | 3 => "Wed" | 4 => "Thu" | 5 => "Fri" | _ => "Sat"

/-- Label of the 24H branch: hour and minute, zero padded, colon separated. -/
def fmtHM (t : DateTime) : String :=
  String.mk (pad2 t.hour ++ ':' :: pad2 t.minute)

/-- Label of the 7D branch: abbreviated weekday, then hour:minute. -/
def fmtAHM (t : DateTime) : String :=
  weekdayAbbrev (dayOfWeek t.year t.month t.day) ++ " " ++ fmtHM t

/-- Label of the 30D branch: abbreviated month and zero-padded day. -/
def fmtBD (t : DateTime) : String :=
  monthAbbrev t.month ++ " " ++ String.mk (pad2 t.day)

/-- Label of the 1Y (default) branch: abbreviated month, day and year. -/
def fmtBDY (t : DateTime) : String :=
  fmtBD t ++ " " ++ String.mk (pad4 t.year)

/-- Canonical ISO-8601 rendering of a timestamp, the value of the `date`
field of a real chart point. -/
def DateTime.isoformat (t : DateTime) : String :=
  String.mk (pad4 t.year ++ '-' :: (pad2 t.month ++ '-' :: (pad2 t.day ++
    'T' :: (pad2 t.hour ++ ':' :: (pad2 t.minute ++ ':' :: pad2 t.second)))))

/-- Decimal digit value of a character, `none` on a non-digit. -/
def charToDigit (c : Char) : Option Nat :=
  if 48 ≤ c.toNat ∧ c.toNat ≤ 57 then some (c.toNat - 48) else none

/-- Consume one expected separator character. -/
def expectChar (c : Char) : List Char → Option (List Char)
  | x :: rest => if x = c then some rest else none
  | [] => none

/-- Consume two digit characters as one two-digit number. -/
def read2 : List Char → Option (Nat × List Char)
  | a :: b :: rest => do
      let x ← charToDigit a
      let y ← charToDigit b
      some (10 * x + y, rest)
  | _ => none

/-- Consume four digit characters as one four-digit number. -/
def read4 : List Char → Option (Nat × List Char)
  | a :: b :: c :: d :: rest => do
      let x ← charToDigit a
      let y ← charToDigit b
      let z ← charToDigit c
      let w ← charToDigit d
      some (1000 * x + 100 * y + 10 * z + w, rest)
  | _ => none

/-- Parse an ISO-8601 date-time string back into its components. -/
def parseIso (s : String) : Option DateTime := do
  let (y, r1) ← read4 s.data
  let r2 ← expectChar '-' r1
  let (mo, r3) ← read2 r2
  let r4 ← expectChar '-' r3
  let (dd, r5) ← read2 r4
  let r6 ← expectChar 'T' r5
  let (hh, r7) ← read2 r6
  let r8 ← expectChar ':' r7
  let (mi, r9) ← read2 r8
  let r10 ← expectChar ':' r9
  let (se, r11) ← read2 r10
  if r11 = [] then some ⟨y, mo, dd, hh, mi, se⟩ else none

/-- Candle row of the fetched OHLCV frame, indexed by its timestamp. -/
structure Candle where
  timestamp : DateTime
  open_ : ℚ
  high : ℚ
  low : ℚ
  close : ℚ
  volume : ℚ
deriving Repr, DecidableEq

/-- Resolved timeframe configuration: market-data interval string and candle count. -/
structure TFConfig where
  interval : String
  limit : Nat
deriving Repr, DecidableEq

/-- Timeframe Resolver: the `timeframe_map` dictionary with its `.get`
default, resolving any unknown timeframe to the 24H entry. -/
def timeframe_map (tf : String) : TFConfig :=
  if tf = "24H" then ⟨"15m", 96⟩
  else if tf = "7D" then ⟨"1h", 168⟩
  else if tf = "30D" then ⟨"4h", 180⟩
  else if tf = "1Y" then ⟨"1d", 365⟩
  else ⟨"15m", 96⟩

/-- History entry of a price-history payload. A real entry carries a full
ISO date; the mock entries are built without one, so the field is optional. -/
structure HistEntry where
  time : String
  price : ℚ
  date : Option String
deriving Repr, DecidableEq

/-- Wire shape of a price-history response body. `timeframe` is present on
the real payload, `is_mock` on the degraded one. -/
structure Payload where
  ticker : String
  current_price : ℚ
  percent_change : ℚ
  high_price : ℚ
  low_price : ℚ
  history : List HistEntry
  timeframe : Option String
  is_mock : Option Bool
deriving Repr, DecidableEq

/-- HTTP response of the price-history endpoint: status code and body. -/
structure HttpResponse where
  status : Nat
  body : Payload
deriving Repr, DecidableEq

/-- Summary statistics block computed by the stat-calculator section. -/
structure Stats where
  current_price : ℚ
  percent_change : ℚ
  high_price : ℚ
  low_price : ℚ
deriving Repr, DecidableEq

/-- Time label of a chart point: the strftime branch chosen by the
timeframe, with 1Y the default of the final else. -/
def timeLabel (tf : String) (t : DateTime) : String :=
  if tf = "24H" then fmtHM t
  else if tf = "7D" then fmtAHM t
  else if tf = "30D" then fmtBD t
  else fmtBDY t

/-- Real chart point built from one candle row: label, close price, ISO date. -/
def realPoint (tf : String) (c : Candle) : HistEntry :=
  ⟨timeLabel tf c.timestamp, c.close, some c.timestamp.isoformat⟩

/-- Chart Formatter: the row loop appending one point per candle in order. -/
def formatHistory (tf : String) (df : List Candle) : List HistEntry :=
  df.map (realPoint tf)

/-- Maximum of a column, as `df.max()` over a non-empty column. -/
def colMax (l : List ℚ) : ℚ := l.foldl max (l.headD 0)

/-- Minimum of a column, as `df.min()` over a non-empty column. -/
def colMin (l : List ℚ) : ℚ := l.foldl min (l.headD 0)

/-- Stat Calculator: on a non-empty frame, last close, percent change from
the first close (a zero first close raises ZeroDivisionError, modelled as
`Except.error`), max of highs and min of lows; on an empty frame, all zeros. -/
def priceStats (df : List Candle) : Except String Stats :=
  match df with
  | [] => Except.ok ⟨0, 0, 0, 0⟩
  | c0 :: rest =>
      let current := (List.getLast (c0 :: rest) (List.cons_ne_nil c0 rest)).close
      let openP := c0.close
      if openP = 0 then Except.error "ZeroDivisionError"
      else
        Except.ok ⟨current, (current - openP) / openP * 100,
          colMax ((c0 :: rest).map (fun c => c.high)),
          colMin ((c0 :: rest).map (fun c => c.low))⟩

/-- Body of the `try` block of `get_price_history`: availability check (the
503 raise), timeframe resolution, candle fetch, chart formatting and stats,
assembled into the real payload; any raise surfaces as `Except.error`. -/
def tryPipeline (techUp : Bool)
    (fetch : String → String → Nat → Except String (List Candle))
    (ticker tf : String) : Except String Payload :=
  if techUp = false then
    Except.error "HTTPException 503: Technical service unavailable"
  else
    let config := timeframe_map tf
    match fetch ticker config.interval config.limit with
    | Except.error e => Except.error e
    | Except.ok df =>
        match priceStats df with
        | Except.error e => Except.error e
        | Except.ok s =>
            Except.ok ⟨ticker, s.current_price, s.percent_change, s.high_price,
              s.low_price, formatHistory tf df, some tf, none⟩

/-- Mock payload of the `except` clause: 20 pseudo-random points around
50000 (each draw in the closed band given to `random.randint`), fixed
summary numbers, and the `is_mock` marker in place of `timeframe`. -/
def mockPayload (ticker : String) (rand : Nat → Int) : Payload :=
  ⟨ticker, 50000, 5 / 2, 52000, 48000,
   (List.range 20).map (fun i => ⟨toString i, 50000 + (rand i : ℚ), none⟩),
   none, some true⟩

/-- The `get_price_history` handler: the pipeline under its degradation
guard. Any raise, the in-try 503 included, is caught and answered with the
mock payload; the status is 200 on both branches. -/
def get_price_history (techUp : Bool)
    (fetch : String → String → Nat → Except String (List Candle))
    (rand : Nat → Int) (ticker tf : String) : HttpResponse :=
  match tryPipeline techUp fetch ticker tf with
  | Except.ok p => ⟨200, p⟩
  | Except.error _ => ⟨200, mockPayload ticker rand⟩

/-- Chat response body produced by the assistant collaborator. -/
structure ChatResponse where
  response : String
  tool_calls : List String
deriving Repr, DecidableEq

/-- HTTP response of the single-shot chat endpoint: status, optional body,
optional error detail. -/
structure ChatHttp where
  status : Nat
  body : Option ChatResponse
  detail : Option String
deriving Repr, DecidableEq

/-- HTTP response of the streaming chat endpoint: status and, when the
stream starts, the chunk sequence forwarded from the assistant. -/
structure StreamHttp where
  status : Nat
  chunks : Option (List String)
  detail : Option String
deriving Repr, DecidableEq

/-- The `chat` handler: a 503 before the `try` when the assistant failed to
initialize; otherwise the collaborator result, a raise becoming a 500. -/
def chat (chatUp : Bool) (process : Except String ChatResponse) : ChatHttp :=
  if chatUp = false then
    ⟨503, none, some "Chat service unavailable (initialization failed)"⟩
  else
    match process with
    | Except.ok r => ⟨200, some r, none⟩
    | Except.error e => ⟨500, none, some e⟩

/-- The `chat_stream` handler: a 503 before the `try` when the assistant
failed to initialize; otherwise the event stream of assistant chunks. -/
def chat_stream (chatUp : Bool) (stream : List String) : StreamHttp :=
  if chatUp = false then
    ⟨503, none, some "Chat service unavailable"⟩
  else
    ⟨200, some stream, none⟩

/-- Status-only HTTP response of the thin delegating endpoints. -/
structure SimpleHttp where
  status : Nat
  detail : Option String
deriving Repr, DecidableEq

/-- The `get_technical_analysis` handler. When the service is `None`, the
attribute access on it raises inside the `try`, so the `except` clause
answers 500, not 503; otherwise the collaborator result, a raise becoming
a 500. -/
def get_technical_analysis (techUp : Bool) (analyze : Except String String) : SimpleHttp :=
  if techUp = false then
    ⟨500, some "AttributeError: NoneType object has no attribute analyze"⟩
  else
    match analyze with
    | Except.ok _ => ⟨200, none⟩
    | Except.error e => ⟨500, some e⟩

/-- The `get_tokenomics` handler, same shape as the technical one. -/
def get_tokenomics (tokUp : Bool) (analyze : Except String String) : SimpleHttp :=
  if tokUp = false then
    ⟨500, some "AttributeError: NoneType object has no attribute analyze"⟩
  else
    match analyze with
    | Except.ok _ => ⟨200, none⟩
    | Except.error e => ⟨500, some e⟩

/-- The `get_news` handler, same shape as the technical one. -/
def get_news (newsUp : Bool) (result : Except String String) : SimpleHttp :=
  if newsUp = false then
    ⟨500, some "AttributeError: NoneType object has no attribute get_news_sentiment"⟩
  else
    match result with
    | Except.ok _ => ⟨200, none⟩
    | Except.error e => ⟨500, some e⟩

/-- Digit characters parse back to their value. -/
theorem charToDigit_digitChar (d : Nat) (h : d < 10) :
    charToDigit (Nat.digitChar d) = some d := by
  interval_cases d <;> decide

/-- Specialisation of the digit round trip to remainders mod 10. -/
theorem charToDigit_digitChar_mod (n : Nat) :
    charToDigit (Nat.digitChar (n % 10)) = some (n % 10) :=
  charToDigit_digitChar (n % 10) (Nat.mod_lt n (by omega))

/-- Parsing inverts the canonical ISO rendering on valid date-times. -/
theorem parseIso_isoformat (t : DateTime) (h : t.Valid) :
    parseIso t.isoformat = some t := by
  obtain ⟨h1, h2, h3, h4, h5, h6, h7, h8⟩ := h
  unfold parseIso DateTime.isoformat pad4 pad2
  simp only [read4, read2, expectChar, List.cons_append, List.nil_append,
    eq_self_iff_true, if_true, charToDigit_digitChar_mod, Option.bind_eq_bind,
    Option.some_bind, Option.some.injEq, DateTime.mk.injEq]
  obtain ⟨y, mo, dd, hh, mi, ss⟩ := t
  simp only [DateTime.mk.injEq]
  dsimp only at h1 h2 h3 h4 h5 h6 h7 h8
  omega


/-- The initial accumulator bounds a max fold from below. -/
theorem foldl_max_init (l : List ℚ) : ∀ a : ℚ, a ≤ l.foldl max a := by
  induction l with
  | nil => intro a; simp
  | cons x xs ih =>
      intro a
      calc a ≤ max a x := le_max_left a x
        _ ≤ (x :: xs).foldl max a := ih (max a x)

/-- Every member of the list bounds a max fold from below. -/
theorem le_foldl_max (l : List ℚ) : ∀ (a y : ℚ), y ∈ l → y ≤ l.foldl max a := by
  induction l with
  | nil => intro a y hy; cases hy
  | cons x xs ih =>
      intro a y hy
      rcases List.mem_cons.mp hy with h | h
      · subst h
        calc y ≤ max a y := le_max_right a y
          _ ≤ _ := foldl_max_init xs (max a y)
      · exact ih (max a x) y h

/-- A max fold lands on the accumulator or on a member. -/
theorem foldl_max_mem (l : List ℚ) : ∀ a : ℚ, l.foldl max a ∈ a :: l := by
  induction l with
  | nil => intro a; simp
  | cons x xs ih =>
      intro a
      rcases List.mem_cons.mp (ih (max a x)) with h | h
      · rw [List.foldl_cons, h]
        rcases max_choice a x with hm | hm
        · rw [hm]; exact List.mem_cons_self a (x :: xs)
        · rw [hm]; exact List.mem_cons.mpr (Or.inr (List.mem_cons_self x xs))
      · rw [List.foldl_cons]
        exact List.mem_cons.mpr (Or.inr (List.mem_cons.mpr (Or.inr h)))

/-- The initial accumulator bounds a min fold from above. -/
theorem foldl_min_init (l : List ℚ) : ∀ a : ℚ, l.foldl min a ≤ a := by
  induction l with
  | nil => intro a; simp
  | cons x xs ih =>
      intro a
      calc (x :: xs).foldl min a = xs.foldl min (min a x) := rfl
        _ ≤ min a x := ih (min a x)
        _ ≤ a := min_le_left a x

/-- Every member of the list bounds a min fold from above. -/
theorem foldl_min_le (l : List ℚ) : ∀ (a y : ℚ), y ∈ l → l.foldl min a ≤ y := by
  induction l with
  | nil => intro a y hy; cases hy
  | cons x xs ih =>
      intro a y hy
      rcases List.mem_cons.mp hy with h | h
      · subst h
        calc (y :: xs).foldl min a = xs.foldl min (min a y) := rfl
          _ ≤ min a y := foldl_min_init xs (min a y)
          _ ≤ y := min_le_right a y
      · exact ih (min a x) y h

/-- A min fold lands on the accumulator or on a member. -/
theorem foldl_min_mem (l : List ℚ) : ∀ a : ℚ, l.foldl min a ∈ a :: l := by
  induction l with
  | nil => intro a; simp
  | cons x xs ih =>
      intro a
      rcases List.mem_cons.mp (ih (min a x)) with h | h
      · rw [List.foldl_cons, h]
        rcases min_choice a x with hm | hm
        · rw [hm]; exact List.mem_cons_self a (x :: xs)
        · rw [hm]; exact List.mem_cons.mpr (Or.inr (List.mem_cons_self x xs))
      · rw [List.foldl_cons]
        exact List.mem_cons.mpr (Or.inr (List.mem_cons.mpr (Or.inr h)))

/-- The column maximum of a non-empty column is attained on the column. -/
theorem colMax_mem (x : ℚ) (xs : List ℚ) : colMax (x :: xs) ∈ x :: xs := by
  unfold colMax
  rcases List.mem_cons.mp (foldl_max_mem (x :: xs) ((x :: xs).headD 0)) with h | h
  · rw [h]; simp
  · exact h

/-- The column maximum of a non-empty column dominates every entry. -/
theorem le_colMax (x : ℚ) (xs : List ℚ) : ∀ y ∈ x :: xs, y ≤ colMax (x :: xs) := by
  intro y hy
  exact le_foldl_max (x :: xs) ((x :: xs).headD 0) y hy

/-- The column minimum of a non-empty column is attained on the column. -/
theorem colMin_mem (x : ℚ) (xs : List ℚ) : colMin (x :: xs) ∈ x :: xs := by
  unfold colMin
  rcases List.mem_cons.mp (foldl_min_mem (x :: xs) ((x :: xs).headD 0)) with h | h
  · rw [h]; simp
  · exact h

/-- The column minimum of a non-empty column is below every entry. -/
theorem colMin_le (x : ℚ) (xs : List ℚ) : ∀ y ∈ x :: xs, colMin (x :: xs) ≤ y := by
  intro y hy
  exact foldl_min_le (x :: xs) ((x :: xs).headD 0) y hy

/-- Claim C4: the Timeframe Resolver maps 24H to (15m, 96), 7D to (1h, 168),
30D to (4h, 180), 1Y to (1d, 365), and any other string to the 24H pair,
without raising. -/
theorem C4_timeframe_resolver :
    timeframe_map "24H" = ⟨"15m", 96⟩ ∧ timeframe_map "7D" = ⟨"1h", 168⟩ ∧
    timeframe_map "30D" = ⟨"4h", 180⟩ ∧ timeframe_map "1Y" = ⟨"1d", 365⟩ ∧
    ∀ tf : String, tf ≠ "24H" → tf ≠ "7D" → tf ≠ "30D" → tf ≠ "1Y" →
      timeframe_map tf = ⟨"15m", 96⟩ := by
  refine ⟨rfl, rfl, rfl, rfl, ?_⟩
  intro tf h1 h2 h3 h4
  unfold timeframe_map
  rw [if_neg h1, if_neg h2, if_neg h3, if_neg h4]

/-- Witness for C4: the unrecognized timeframe 5Y resolves to the 24H pair. -/
theorem C4_timeframe_resolver_witness :
    timeframe_map "5Y" = ⟨"15m", 96⟩ :=
  C4_timeframe_resolver.2.2.2.2 "5Y" (by decide) (by decide) (by decide) (by decide)

/-- Claim C6: on the empty candle series the Stat Calculator returns all four
statistics as zero through its length guard, never reaching the division. -/
theorem C6_stat_calculator_empty :
    priceStats [] = Except.ok ⟨0, 0, 0, 0⟩ := rfl

/-- Counterexample to claim C5 as stated: on a non-empty series whose first
close is zero, the Stat Calculator does not return a result at all — the
percent-change division raises. -/
theorem C5_counterexample :
    ¬ ∃ s : Stats,
      priceStats [⟨⟨2024, 1, 1, 0, 0, 0⟩, 1, 2, 1, 0, 5⟩] = Except.ok s := by
  intro ⟨s, hs⟩
  rw [show priceStats [⟨⟨2024, 1, 1, 0, 0, 0⟩, 1, 2, 1, 0, 5⟩] =
      Except.error "ZeroDivisionError" from rfl] at hs
  exact Except.noConfusion hs

/-- Claim C5 (amended): on a non-empty candle series whose first close is
non-zero, the Stat Calculator returns the close of the last candle, the
percent change against the first close, the maximum of the highs and the
minimum of the lows. -/
theorem C5_stat_calculator (df : List Candle) (h0 : df ≠ [])
    (hz : (df.head h0).close ≠ 0) :
    ∃ s : Stats, priceStats df = Except.ok s ∧
      s.current_price = (df.getLast h0).close ∧
      s.percent_change =
        ((df.getLast h0).close - (df.head h0).close) / (df.head h0).close * 100 ∧
      s.high_price ∈ df.map (fun c => c.high) ∧
      (∀ x ∈ df.map (fun c => c.high), x ≤ s.high_price) ∧
      s.low_price ∈ df.map (fun c => c.low) ∧
      (∀ x ∈ df.map (fun c => c.low), s.low_price ≤ x) := by
  cases df with
  | nil => exact absurd rfl h0
  | cons c0 rest =>
      have hz' : c0.close ≠ 0 := hz
      refine ⟨⟨(List.getLast (c0 :: rest) (List.cons_ne_nil c0 rest)).close,
        ((List.getLast (c0 :: rest) (List.cons_ne_nil c0 rest)).close - c0.close)
          / c0.close * 100,
        colMax ((c0 :: rest).map (fun c => c.high)),
        colMin ((c0 :: rest).map (fun c => c.low))⟩,
        ?_, rfl, rfl, ?_, ?_, ?_, ?_⟩
      · simp only [priceStats, if_neg hz']
      · rw [List.map_cons]; exact colMax_mem c0.high (rest.map (fun c => c.high))
      · rw [List.map_cons]; exact le_colMax c0.high (rest.map (fun c => c.high))
      · rw [List.map_cons]; exact colMin_mem c0.low (rest.map (fun c => c.low))
      · rw [List.map_cons]; exact colMin_le c0.low (rest.map (fun c => c.low))

/-- Witness for C5: the amended statement applied to a concrete two-candle series. -/
theorem C5_stat_calculator_witness :
    ∃ s : Stats,
      priceStats [⟨⟨2024, 1, 1, 0, 0, 0⟩, 1, 3, 1, 2, 5⟩,
                  ⟨⟨2024, 1, 1, 0, 15, 0⟩, 2, 4, 2, 3, 5⟩] = Except.ok s := by
  obtain ⟨s, hs, -⟩ :=
    C5_stat_calculator [⟨⟨2024, 1, 1, 0, 0, 0⟩, 1, 3, 1, 2, 5⟩,
                        ⟨⟨2024, 1, 1, 0, 15, 0⟩, 2, 4, 2, 3, 5⟩] (by decide) (by decide)
  exact ⟨s, hs⟩

/-- Claim C1: the price-history endpoint always answers HTTP 200, and when
any step of the pipeline raises, the body is the mock payload with the
`is_mock` marker and exactly 20 history points. -/
theorem C1_price_history_always_200 (techUp : Bool)
    (fetch : String → String → Nat → Except String (List Candle))
    (rand : Nat → Int) (ticker tf : String) :
    (get_price_history techUp fetch rand ticker tf).status = 200 ∧
    ∀ e : String, tryPipeline techUp fetch ticker tf = Except.error e →
      (get_price_history techUp fetch rand ticker tf).body.is_mock = some true ∧
      (get_price_history techUp fetch rand ticker tf).body.history.length = 20 := by
  constructor
  · unfold get_price_history
    cases tryPipeline techUp fetch ticker tf <;> rfl
  · intro e he
    unfold get_price_history
    rw [he]
    exact ⟨rfl, by simp [mockPayload]⟩

/-- Witness for C1: a raising Candle Fetcher for BTCUSDT over 7D still gives
a mock body of 20 points. -/
theorem C1_price_history_always_200_witness :
    tryPipeline true (fun _ _ _ => Except.error "boom") "BTCUSDT" "7D" =
      Except.error "boom" ∧
    (get_price_history true (fun _ _ _ => Except.error "boom") (fun _ => 0)
      "BTCUSDT" "7D").body.is_mock = some true ∧
    (get_price_history true (fun _ _ _ => Except.error "boom") (fun _ => 0)
      "BTCUSDT" "7D").body.history.length = 20 :=
  ⟨rfl, (C1_price_history_always_200 true (fun _ _ _ => Except.error "boom")
    (fun _ => 0) "BTCUSDT" "7D").2 "boom" rfl⟩

/-- Counterexample to claim C2 as stated: with the technical service down,
the price-history endpoint does not answer 503 — its in-try 503 raise is
caught by the degradation guard, which answers 200 with the mock payload. -/
theorem C2_counterexample :
    (get_price_history false (fun _ _ _ => Except.ok []) (fun _ => 0)
      "BTCUSDT" "24H").status = 200 ∧
    ¬ (get_price_history false (fun _ _ _ => Except.ok []) (fun _ => 0)
      "BTCUSDT" "24H").status = 503 ∧
    (get_price_history false (fun _ _ _ => Except.ok []) (fun _ => 0)
      "BTCUSDT" "24H").body.is_mock = some true := by
  refine ⟨rfl, ?_, rfl⟩
  intro h
  rw [show (get_price_history false (fun _ _ _ => Except.ok []) (fun _ => 0)
    "BTCUSDT" "24H").status = 200 from rfl] at h
  exact absurd h (by decide)

/-- Claim C2 (amended): with a failed collaborator, only the chat endpoints
answer 503; the technical, tokenomics and news endpoints answer 500 out of
their generic except clause, and the price-history endpoint answers 200 with
the mock payload because its 503 raise sits inside the guarded try block. -/
theorem C2_unavailable_collaborators
    (fetch : String → String → Nat → Except String (List Candle))
    (rand : Nat → Int) (ticker tf : String)
    (analyze tok news : Except String String)
    (process : Except String ChatResponse) (stream : List String) :
    get_price_history false fetch rand ticker tf = ⟨200, mockPayload ticker rand⟩ ∧
    (get_technical_analysis false analyze).status = 500 ∧
    (get_tokenomics false tok).status = 500 ∧
    (get_news false news).status = 500 ∧
    (chat false process).status = 503 ∧
    (chat_stream false stream).status = 503 :=
  ⟨rfl, rfl, rfl, rfl, rfl, rfl⟩

/-- Counterexample to claim C3 as stated: the mock history entries carry only
time and price — the first mock entry of a degraded response has no date
field. -/
theorem C3_counterexample :
    (get_price_history false (fun _ _ _ => Except.error "down") (fun _ => 0)
      "BTCUSDT" "24H").body.is_mock = some true ∧
    ∃ e ∈ (get_price_history false (fun _ _ _ => Except.error "down")
      (fun _ => 0) "BTCUSDT" "24H").body.history, e.date = none := by
  constructor
  · rfl
  · refine ⟨⟨"0", 50000 + ((0 : Int) : ℚ), none⟩, ?_, rfl⟩
    show _ ∈ (mockPayload "BTCUSDT" (fun _ => 0)).history
    exact List.mem_map.mpr ⟨0, List.mem_range.mpr (by omega), rfl⟩

/-- Claim C3 (amended): the degraded payload carries the same top-level
fields as a real response with `is_mock` in place of `timeframe`, and each
of its 20 history entries carries time and price but no date field. -/
theorem C3_mock_shape (techUp : Bool)
    (fetch : String → String → Nat → Except String (List Candle))
    (rand : Nat → Int) (ticker tf : String)
    (e : String) (he : tryPipeline techUp fetch ticker tf = Except.error e) :
    (get_price_history techUp fetch rand ticker tf).body.ticker = ticker ∧
    (get_price_history techUp fetch rand ticker tf).body.is_mock = some true ∧
    (get_price_history techUp fetch rand ticker tf).body.timeframe = none ∧
    (get_price_history techUp fetch rand ticker tf).body.history.length = 20 ∧
    ∀ p ∈ (get_price_history techUp fetch rand ticker tf).body.history,
      p.date = none := by
  unfold get_price_history
  rw [he]
  refine ⟨rfl, rfl, rfl, by simp [mockPayload], ?_⟩
  intro p hp
  simp [mockPayload] at hp
  obtain ⟨i, -, rfl⟩ := hp
  rfl

/-- Witness for C3: the amended statement applied to a raising fetcher. -/
theorem C3_mock_shape_witness :
    (get_price_history true (fun _ _ _ => Except.error "down") (fun _ => 0)
      "ETHUSDT" "30D").body.is_mock = some true ∧
    (get_price_history true (fun _ _ _ => Except.error "down") (fun _ => 0)
      "ETHUSDT" "30D").body.timeframe = none ∧
    (get_price_history true (fun _ _ _ => Except.error "down") (fun _ => 0)
      "ETHUSDT" "30D").body.history.length = 20 := by
  obtain ⟨-, h2, h3, h4, -⟩ :=
    C3_mock_shape true (fun _ _ _ => Except.error "down") (fun _ => 0)
      "ETHUSDT" "30D" "down" rfl
  exact ⟨h2, h3, h4⟩

/-- Claim C7: with the assistant collaborator unavailable, both chat
endpoints answer 503 with no body — never 500 and never a degraded payload. -/
theorem C7_chat_unavailable
    (process : Except String ChatResponse) (stream : List String) :
    (chat false process).status = 503 ∧
    ¬ (chat false process).status = 500 ∧
    (chat false process).body = none ∧
    (chat_stream false stream).status = 503 ∧
    ¬ (chat_stream false stream).status = 500 ∧
    (chat_stream false stream).chunks = none := by
  refine ⟨rfl, ?_, rfl, rfl, ?_, rfl⟩
  · intro h
    rw [show (chat false process).status = 503 from rfl] at h
    exact absurd h (by decide)
  · intro h
    rw [show (chat_stream false stream).status = 503 from rfl] at h
    exact absurd h (by decide)

/-- Claim C8: the Chart Formatter yields one point per candle in series
order, and the display label follows the timeframe: 24H gives hour:minute,
7D abbreviated weekday plus hour:minute, 30D abbreviated month plus day,
and 1Y or any other timeframe abbreviated month, day and year. -/
theorem C8_chart_formatter (tf : String) (df : List Candle) :
    (formatHistory tf df).length = df.length ∧
    (∀ i : Nat, (formatHistory tf df)[i]? = (df[i]?).map (realPoint tf)) ∧
    (∀ c : Candle, tf = "24H" → (realPoint tf c).time = fmtHM c.timestamp) ∧
    (∀ c : Candle, tf = "7D" → (realPoint tf c).time = fmtAHM c.timestamp) ∧
    (∀ c : Candle, tf = "30D" → (realPoint tf c).time = fmtBD c.timestamp) ∧
    (∀ c : Candle, tf ≠ "24H" → tf ≠ "7D" → tf ≠ "30D" →
      (realPoint tf c).time = fmtBDY c.timestamp) := by
  refine ⟨List.length_map df (realPoint tf), ?_, ?_, ?_, ?_, ?_⟩
  · intro i
    simp [formatHistory]
  · intro c h; subst h; rfl
  · intro c h; subst h; rfl
  · intro c h; subst h; rfl
  · intro c h1 h2 h3
    show timeLabel tf c.timestamp = fmtBDY c.timestamp
    unfold timeLabel
    rw [if_neg h1, if_neg h2, if_neg h3]

/-- Witness for C8: ordering on a concrete series, and the spec's example
labels — a candle at 14:05 on March 3 2024 formats as 14:05, Sun 14:05,
Mar 03 and Mar 03 2024 in the respective branches. -/
theorem C8_chart_formatter_witness :
    (formatHistory "24H" [⟨⟨2024, 3, 3, 14, 5, 0⟩, 1, 2, 1, 1, 0⟩]).length =
      ([⟨⟨2024, 3, 3, 14, 5, 0⟩, 1, 2, 1, 1, 0⟩] : List Candle).length ∧
    (realPoint "24H" ⟨⟨2024, 3, 3, 14, 5, 0⟩, 1, 2, 1, 1, 0⟩).time =
      fmtHM ⟨2024, 3, 3, 14, 5, 0⟩ ∧
    (realPoint "1Y" ⟨⟨2024, 3, 3, 14, 5, 0⟩, 1, 2, 1, 1, 0⟩).time =
      fmtBDY ⟨2024, 3, 3, 14, 5, 0⟩ ∧
    fmtHM ⟨2024, 3, 3, 14, 5, 0⟩ = "14:05" ∧
    fmtAHM ⟨2024, 3, 3, 14, 5, 0⟩ = "Sun 14:05" ∧
    fmtBD ⟨2024, 3, 3, 14, 5, 0⟩ = "Mar 03" ∧
    fmtBDY ⟨2024, 3, 3, 14, 5, 0⟩ = "Mar 03 2024" := by
  refine ⟨(C8_chart_formatter "24H" [⟨⟨2024, 3, 3, 14, 5, 0⟩, 1, 2, 1, 1, 0⟩]).1,
    ?_, ?_, by decide, by decide, by decide, by decide⟩
  · exact (C8_chart_formatter "24H" [⟨⟨2024, 3, 3, 14, 5, 0⟩, 1, 2, 1, 1, 0⟩]).2.2.1
      ⟨⟨2024, 3, 3, 14, 5, 0⟩, 1, 2, 1, 1, 0⟩ rfl
  · exact (C8_chart_formatter "1Y" [⟨⟨2024, 3, 3, 14, 5, 0⟩, 1, 2, 1, 1, 0⟩]).2.2.2.2.2
      ⟨⟨2024, 3, 3, 14, 5, 0⟩, 1, 2, 1, 1, 0⟩ (by decide) (by decide) (by decide)

/-- Claim C9: on a candle series with valid, strictly ascending timestamps,
parsing each real chart point's ISO date back yields a timestamp strictly
greater than the parsed date of the previous point. -/
theorem C9_date_roundtrip_monotone (tf : String) (df : List Candle)
    (hv : ∀ c ∈ df, c.timestamp.Valid)
    (hasc : List.Chain' (fun a b => a.timestamp.key < b.timestamp.key) df)
    (i : Nat) (h0 : 0 < i) (hi : i < (formatHistory tf df).length) :
    ∃ t1 t2 : DateTime,
      Option.bind ((formatHistory tf df).get ⟨i - 1, by omega⟩).date parseIso =
        some t1 ∧
      Option.bind ((formatHistory tf df).get ⟨i, hi⟩).date parseIso = some t2 ∧
      t1.key < t2.key := by
  obtain ⟨j, rfl⟩ : ∃ j, i = j + 1 := ⟨i - 1, by omega⟩
  have hlen : (formatHistory tf df).length = df.length :=
    List.length_map df (realPoint tf)
  have hj1 : j + 1 < df.length := by omega
  have hj0 : j < df.length := by omega
  refine ⟨(df.get ⟨j, hj0⟩).timestamp, (df.get ⟨j + 1, hj1⟩).timestamp, ?_, ?_, ?_⟩
  · have hget : (formatHistory tf df).get ⟨j + 1 - 1, by omega⟩ =
        realPoint tf (df.get ⟨j, hj0⟩) := by
      simp [formatHistory]
    rw [hget]
    show Option.bind (some (df.get ⟨j, hj0⟩).timestamp.isoformat) parseIso = _
    rw [Option.some_bind]
    exact parseIso_isoformat _ (hv _ (df.get_mem _ _))
  · have hget : (formatHistory tf df).get ⟨j + 1, hi⟩ =
        realPoint tf (df.get ⟨j + 1, hj1⟩) := by
      simp [formatHistory]
    rw [hget]
    show Option.bind (some (df.get ⟨j + 1, hj1⟩).timestamp.isoformat) parseIso = _
    rw [Option.some_bind]
    exact parseIso_isoformat _ (hv _ (df.get_mem _ _))
  · exact List.chain'_iff_get.mp hasc j (by omega)

/-- Witness for C9: two concrete ascending 15-minute candles round trip into
strictly increasing parsed dates. -/
theorem C9_date_roundtrip_monotone_witness :
    ∃ t1 t2 : DateTime,
      Option.bind ((formatHistory "24H"
        [⟨⟨2024, 3, 3, 14, 0, 0⟩, 1, 2, 1, 1, 0⟩,
         ⟨⟨2024, 3, 3, 14, 15, 0⟩, 1, 2, 1, 1, 0⟩]).get ⟨1 - 1, by decide⟩).date
        parseIso = some t1 ∧
      Option.bind ((formatHistory "24H"
        [⟨⟨2024, 3, 3, 14, 0, 0⟩, 1, 2, 1, 1, 0⟩,
         ⟨⟨2024, 3, 3, 14, 15, 0⟩, 1, 2, 1, 1, 0⟩]).get ⟨1, by decide⟩).date
        parseIso = some t2 ∧
      t1.key < t2.key :=
  C9_date_roundtrip_monotone "24H"
    [⟨⟨2024, 3, 3, 14, 0, 0⟩, 1, 2, 1, 1, 0⟩,
     ⟨⟨2024, 3, 3, 14, 15, 0⟩, 1, 2, 1, 1, 0⟩]
    (by decide) (List.chain'_pair.mpr (by decide)) 1 (by decide) (by decide)

/-- A successful pipeline run decomposes into a successful fetch, successful
stats, and the real payload assembled from them. -/
theorem tryPipeline_ok (techUp : Bool)
    (fetch : String → String → Nat → Except String (List Candle))
    (ticker tf : String) (p : Payload)
    (h : tryPipeline techUp fetch ticker tf = Except.ok p) :
    ∃ df s, fetch ticker (timeframe_map tf).interval (timeframe_map tf).limit =
        Except.ok df ∧
      priceStats df = Except.ok s ∧
      p = ⟨ticker, s.current_price, s.percent_change, s.high_price, s.low_price,
        formatHistory tf df, some tf, none⟩ := by
  unfold tryPipeline at h
  cases techUp with
  | false => simp at h
  | true =>
      simp only [Bool.true_eq_false, if_false] at h
      cases hf : fetch ticker (timeframe_map tf).interval (timeframe_map tf).limit with
      | error e => rw [hf] at h; exact Except.noConfusion h
      | ok df =>
          rw [hf] at h
          dsimp only at h
          cases hs : priceStats df with
          | error e => rw [hs] at h; exact Except.noConfusion h
          | ok s =>
              rw [hs] at h
              dsimp only at h
              refine ⟨df, s, rfl, hs, ?_⟩
              exact ((Except.ok.injEq _ _).mp h).symm

/-- The column minimum is below every entry, membership form. -/
theorem colMin_le_of_mem (l : List ℚ) (y : ℚ) (hy : y ∈ l) : colMin l ≤ y := by
  cases l with
  | nil => cases hy
  | cons x xs => exact colMin_le x xs y hy

/-- The column maximum dominates every entry, membership form. -/
theorem le_colMax_of_mem (l : List ℚ) (y : ℚ) (hy : y ∈ l) : y ≤ colMax l := by
  cases l with
  | nil => cases hy
  | cons x xs => exact le_colMax x xs y hy

/-- Stats of a successful Stat Calculator run bound every candle's low and
high of the series. -/
theorem priceStats_ok_bounds (df : List Candle) (s : Stats)
    (h : priceStats df = Except.ok s) :
    ∀ c ∈ df, s.low_price ≤ c.low ∧ c.high ≤ s.high_price := by
  cases df with
  | nil => intro c hc; exact absurd hc (by simp)
  | cons c0 rest =>
      unfold priceStats at h
      dsimp only at h
      by_cases h0 : c0.close = 0
      · rw [if_pos h0] at h; exact Except.noConfusion h
      · rw [if_neg h0] at h
        have hfield := (Except.ok.injEq _ _).mp h
        have hlow : s.low_price = colMin (List.map (fun c : Candle => c.low) (c0 :: rest)) := by
          rw [← hfield]
        have hhigh : s.high_price = colMax (List.map (fun c : Candle => c.high) (c0 :: rest)) := by
          rw [← hfield]
        intro c hcmem
        rw [hlow, hhigh]
        exact ⟨colMin_le_of_mem (List.map (fun c : Candle => c.low) (c0 :: rest)) c.low
            (List.mem_map_of_mem (fun c : Candle => c.low) hcmem),
          le_colMax_of_mem (List.map (fun c : Candle => c.high) (c0 :: rest)) c.high
            (List.mem_map_of_mem (fun c : Candle => c.high) hcmem)⟩

/-- Claim C10: in every price-history response, real or degraded, each
history price lies between the response's low and high — for real payloads
whenever every candle has its close inside its low-high range, and for the
mock payload with the tighter band 49000..51000 inside the fixed summary
bounds 48000 and 52000. -/
theorem C10_price_band (techUp : Bool)
    (fetch : String → String → Nat → Except String (List Candle))
    (rand : Nat → Int) (ticker tf : String)
    (hc : ∀ interval limit df, fetch ticker interval limit = Except.ok df →
      ∀ c ∈ df, c.low ≤ c.close ∧ c.close ≤ c.high)
    (hr : ∀ i : Nat, -1000 ≤ rand i ∧ rand i ≤ 1000) :
    (∀ e ∈ (get_price_history techUp fetch rand ticker tf).body.history,
      (get_price_history techUp fetch rand ticker tf).body.low_price ≤ e.price ∧
      e.price ≤ (get_price_history techUp fetch rand ticker tf).body.high_price) ∧
    ((get_price_history techUp fetch rand ticker tf).body.is_mock = some true →
      (get_price_history techUp fetch rand ticker tf).body.low_price = 48000 ∧
      (get_price_history techUp fetch rand ticker tf).body.high_price = 52000 ∧
      ∀ e ∈ (get_price_history techUp fetch rand ticker tf).body.history,
        49000 ≤ e.price ∧ e.price ≤ 51000) := by
  cases htp : tryPipeline techUp fetch ticker tf with
  | error err =>
      have hresp : get_price_history techUp fetch rand ticker tf =
          ⟨200, mockPayload ticker rand⟩ := by
        unfold get_price_history; rw [htp]
      rw [hresp]
      constructor
      · intro e he
        simp only [mockPayload, List.mem_map, List.mem_range] at he
        obtain ⟨i, -, rfl⟩ := he
        obtain ⟨hl, hh⟩ := hr i
        have hlq : (-1000 : ℚ) ≤ (rand i : ℚ) := by exact_mod_cast hl
        have hhq : (rand i : ℚ) ≤ 1000 := by exact_mod_cast hh
        constructor
        · show (48000 : ℚ) ≤ 50000 + (rand i : ℚ)
          linarith
        · show 50000 + (rand i : ℚ) ≤ 52000
          linarith
      · intro _
        refine ⟨rfl, rfl, ?_⟩
        intro e he
        simp only [mockPayload, List.mem_map, List.mem_range] at he
        obtain ⟨i, -, rfl⟩ := he
        obtain ⟨hl, hh⟩ := hr i
        have hlq : (-1000 : ℚ) ≤ (rand i : ℚ) := by exact_mod_cast hl
        have hhq : (rand i : ℚ) ≤ 1000 := by exact_mod_cast hh
        constructor
        · show (49000 : ℚ) ≤ 50000 + (rand i : ℚ)
          linarith
        · show 50000 + (rand i : ℚ) ≤ 51000
          linarith
  | ok p =>
      obtain ⟨df, s, hf, hs, hp⟩ := tryPipeline_ok techUp fetch ticker tf p htp
      have hresp : get_price_history techUp fetch rand ticker tf = ⟨200, p⟩ := by
        unfold get_price_history; rw [htp]
      rw [hresp, hp]
      constructor
      · intro e he
        simp only [formatHistory, List.mem_map] at he
        obtain ⟨c, hcmem, rfl⟩ := he
        have hb := priceStats_ok_bounds df s hs c hcmem
        have hcc := hc (timeframe_map tf).interval (timeframe_map tf).limit df hf c hcmem
        exact ⟨le_trans hb.1 hcc.1, le_trans hcc.2 hb.2⟩
      · intro hmock
        simp at hmock

/-- Witness for C10: the degraded response of a raising fetcher has the
fixed mock bounds. -/
theorem C10_price_band_witness :
    (get_price_history true (fun _ _ _ => Except.error "down") (fun _ => 0)
      "BTCUSDT" "24H").body.low_price = 48000 ∧
    (get_price_history true (fun _ _ _ => Except.error "down") (fun _ => 0)
      "BTCUSDT" "24H").body.high_price = 52000 := by
  have h := (C10_price_band true (fun _ _ _ => Except.error "down") (fun _ => 0)
    "BTCUSDT" "24H"
    (by intro interval limit df h; exact Except.noConfusion h)
    (by intro i; exact ⟨by show (-1000 : Int) ≤ 0; decide,
      by show (0 : Int) ≤ 1000; decide⟩)).2 (by rfl)
  exact ⟨h.1, h.2.1⟩
